import Mathlib

/-!
Shallow embedding of flask-securest (flask_securest/rest_security.py,
flask_securest/authentication_providers/token.py, flask_securest/models.py).

Flask request state is made explicit: header lookups become `Option String`
arguments, the per-request context becomes a `RequestCtx` value threaded
through, exceptions become `Except`.  The external base64 decoder
(`itsdangerous.base64_decode`, which raises `TypeError` on bad input in
Python 2) and the serializer's wire decoding are parameters, as is the
external user store (`AbstractUserstore.get_user`).
-/

namespace FlaskSecurest

/-- models.py `User`: username, password, optional email, roles, active flag. -/
structure User where
  username : String
  password : String
  email : Option String := none
  roles : List String := []
  active : Bool := true
deriving Repr, DecidableEq

/-- The external user-store contract: `get_user(username) -> User | None`. -/
def Userstore : Type := String → Option User

/-- Python truthiness of an optional string: `None` and `''` are falsy. -/
def strFalsy : Option String → Bool
  | none => true
  | some s => s == ""

/-! ## Request identity binder (rest_security.py lines 225-237) -/

/-- The Flask request context; the `user` attribute does not exist
(`none`) until `set_request_user` first assigns it. -/
structure RequestCtx where
  user : Option User := none
deriving Repr, DecidableEq

/-- Errors raised by the identity binder: `RuntimeError('working outside of
request context')` and the `AttributeError` from a two-argument `getattr`
on a context whose `user` attribute was never assigned. -/
inductive CtxErr where
  | workingOutsideRequestContext
  | attributeError
deriving Repr, DecidableEq

/-- rest_security.py `_get_request_context`: `_request_ctx_stack.top`, raising
when there is no active request context. -/
def getRequestContext (stack : Option RequestCtx) : Except CtxErr RequestCtx :=
  match stack with
  | none => .error .workingOutsideRequestContext
  | some ctx => .ok ctx

/-- rest_security.py `get_request_user`: `getattr(_get_request_context(), 'user')`;
the two-argument `getattr` raises `AttributeError` when the attribute is absent. -/
def get_request_user (stack : Option RequestCtx) : Except CtxErr User :=
  match getRequestContext stack with
  | .error e => .error e
  | .ok ctx =>
      match ctx.user with
      | none => .error .attributeError
      | some u => .ok u

/-- rest_security.py `set_request_user`: `_get_request_context().user = user`,
a plain attribute assignment. -/
def set_request_user (ctx : RequestCtx) (u : User) : RequestCtx :=
  { ctx with user := some u }

/-! ## Credential extractor (rest_security.py lines 160-198) -/

/-- The `auth_info` namedtuple `(user_id, password, token)`. -/
structure AuthInfo where
  user_id : Option String
  password : Option String
  token : Option String
deriving Repr, DecidableEq

/-- Exceptions escaping `get_auth_info_from_request`: the explicit raise when
neither header is present, and the `IndexError` from `api_key_parts[1]` when
the decoded payload contains no colon. -/
inductive ExtractErr where
  | headersNotFound
  | indexError
deriving Repr, DecidableEq

/-- Remove the first occurrence of `pat` from a character list
(Python `s.replace(pat, '', 1)` restricted to deletion). -/
def dropFirstOccur (pat : List Char) : List Char → List Char
  | [] => []
  | c :: cs =>
      if pat.isPrefixOf (c :: cs) then (c :: cs).drop pat.length
      else c :: dropFirstOccur pat cs

/-- Python `s.replace(pat, '', 1)`. -/
def replaceFirst (s pat : String) : String :=
  ⟨dropFirstOccur pat.data s.data⟩

/-- Python `s.split(sep)` for a one-character separator, on character
lists: `''.split(':') == ['']`, `'a:'.split(':') == ['a', '']`. -/
def splitOnChar (c : Char) : List Char → List (List Char)
  | [] => [[]]
  | x :: xs =>
      let rest := splitOnChar c xs
      if x = c then [] :: rest
      else
        match rest with
        | r :: rs => (x :: r) :: rs
        | [] => [[x]]

/-- Python `api_key.split(':')`. -/
def pySplitColon (s : String) : List String :=
  (splitOnChar ':' s.data).map fun l => ⟨l⟩

/-- rest_security.py `get_auth_info_from_request` with the default header
names configured.  `b64decode` stands for `itsdangerous.base64_decode`;
`none` models the `TypeError` it raises on undecodable input (silently
swallowed by the source).  `authHeader` and `tokenHeader` are the results of
`request.headers.get` for `Authorization` and `Authentication-Token`. -/
def get_auth_info_from_request (b64decode : String → Option String)
    (authHeader tokenHeader : Option String) : Except ExtractErr AuthInfo :=
  let token := tokenHeader
  if strFalsy authHeader && strFalsy token then
    .error .headersNotFound
  else
    match authHeader with
    | some h =>
        if h = "" then
          -- `if auth_header:` is false for the empty string
          .ok ⟨none, none, token⟩
        else
          match b64decode (replaceFirst h "Basic ") with
          | none => .ok ⟨none, none, token⟩
          | some apiKey =>
              match pySplitColon apiKey with
              | p0 :: p1 :: _ => .ok ⟨some p0, some p1, token⟩
              | _ => .error .indexError
    | none => .ok ⟨none, none, token⟩

/-! ## Token codec (authentication_providers/token.py) -/

/-- A decoded token blob as the `TimedJSONWebSignatureSerializer` sees it:
either a correctly signed payload `{username: …}` with an issue timestamp
under some key, or a blob whose signature verifies under no key (tampered
or garbage).  `payload = none` models a payload lacking the `username`
field. -/
inductive Token where
  | signed (payload : Option String) (issuedAt : Nat) (key : String)
  | garbage
deriving Repr, DecidableEq

/-- Outcomes of `TimedJSONWebSignatureSerializer.loads`: `BadSignature`,
`SignatureExpired` (signature valid but `issuedAt + expiresIn < now`), or
the decoded payload. -/
inductive LoadErr where
  | badSignature
  | signatureExpired
deriving Repr, DecidableEq

/-- `TimedJSONWebSignatureSerializer(secret, expiresIn).loads` at wall-clock
`now`: signature check first, then expiry. -/
def serializerLoads (secret : String) (expiresIn now : Nat) :
    Token → Except LoadErr (Option String)
  | .garbage => .error .badSignature
  | .signed payload issuedAt key =>
      if key ≠ secret then .error .badSignature
      else if issuedAt + expiresIn < now then .error .signatureExpired
      else .ok payload

/-- token.py `TokenAuthenticator.generate_auth_token`: dumps
`{username: <current user's username>}` signed with the secret, timestamped
at issue time. -/
def generate_auth_token (secret : String) (now : Nat) (username : String) : Token :=
  .signed (some username) now secret

/-- The exceptions raised by the token provider, one constructor per
`raise` site in token.py. -/
inductive TokenAuthErr where
  | headerNotFound
  | missingOrEmpty
  | tokenExpired
  | invalidToken
  | userNotFound
deriving Repr, DecidableEq

/-- The `str(e)` of each token-provider exception, as recorded by the
orchestrator's aggregate buffer. -/
def TokenAuthErr.message : TokenAuthErr → String
  | .headerNotFound => "Authentication header not found on request: Authentication-Token"
  | .missingOrEmpty => "token is missing or empty"
  | .tokenExpired => "token expired"
  | .invalidToken => "invalid token"
  | .userNotFound => "user not found"

/-- token.py `_get_auth_info_from_request` with the default header name:
raises when the token header is absent or falsy (empty). -/
def tokenFromRequest (tokenHeader : Option String) : Except TokenAuthErr String :=
  match tokenHeader with
  | none => .error .headerNotFound
  | some t => if t = "" then .error .headerNotFound else .ok t

/-- token.py `TokenAuthenticator.authenticate(self, userstore)`.
`decodeWire` stands for the serializer's deserialization of the raw header
string into a blob (tampered strings decode to `Token.garbage`); the
signature and expiry checks are `serializerLoads`.  Note the source method
takes only the user store: the token itself is re-read from the request. -/
def tokenAuthenticate (secret : String) (expiresIn now : Nat)
    (decodeWire : String → Token) (tokenHeader : Option String)
    (userstore : Userstore) : Except TokenAuthErr User :=
  match tokenFromRequest tokenHeader with
  | .error e => .error e
  | .ok tokenStr =>
      if tokenStr = "" then .error .missingOrEmpty
      else
        match serializerLoads secret expiresIn now (decodeWire tokenStr) with
        | .error .signatureExpired => .error .tokenExpired
        | .error .badSignature => .error .invalidToken
        | .ok payload =>
            match payload with
            | none => .error .invalidToken
            | some username =>
                if username = "" then .error .invalidToken
                else
                  match userstore username with
                  | none => .error .userNotFound
                  | some user => .ok user

/-! ## Authentication chain orchestrator (rest_security.py lines 201-222) -/

/-- A registered provider as the orchestrator sees it.  The orchestrator
always calls `auth_provider.authenticate(auth_info, userstore_driver)`:
a provider whose method is defined with two parameters after `self`
(`twoArg`) receives both arguments; one defined like
`TokenAuthenticator.authenticate(self, userstore)` (`oneArg`) is called
with one positional argument too many, which in Python raises `TypeError`
before the body runs. -/
inductive Provider where
  | twoArg (f : AuthInfo → Userstore → Except String User)
  | oneArg (f : Userstore → Except String User)

/-- The orchestrator's call `auth_provider.authenticate(auth_info,
userstore_driver)` under Python positional-argument semantics. -/
def invokeProvider : Provider → AuthInfo → Userstore → Except String User
  | .twoArg f, info, store => f info store
  | .oneArg _, _, _ => .error "authenticate() takes exactly 2 arguments (3 given)"

/-- The `for auth_method, auth_provider in …` loop of rest_security.py
`authenticate`: first success breaks; each failure appends
`'\n{method} authentication failed: {e}'` to the `StringIO` buffer `acc`
and continues; when the loop ends without a user the buffer's contents are
raised. -/
def tryProviders (providers : List (String × Provider)) (info : AuthInfo)
    (store : Userstore) (acc : String) : Except String User :=
  match providers with
  | [] => .error acc
  | (name, p) :: rest =>
      match invokeProvider p info store with
      | .ok u => .ok u
      | .error e =>
          tryProviders rest info store
            (acc ++ "\n" ++ name ++ " authentication failed: " ++ e)

/-- rest_security.py `authenticate(authentication_providers, auth_info)`:
run the provider loop and, on success, `set_request_user(user)`. -/
def authenticate (providers : List (String × Provider)) (info : AuthInfo)
    (store : Userstore) (ctx : RequestCtx) : Except String RequestCtx :=
  match tryProviders providers info store "" with
  | .ok u => .ok (set_request_user ctx u)
  | .error msg => .error msg

/-! ## auth_required wrapper and unauthorized handling
    (rest_security.py lines 116-157) -/

/-- rest_security.py `filter_results`: the identity transform. -/
def filter_results {α : Type} (results : α) : α := results

/-- Exceptions escaping the `auth_required` wrapper: `abort(401)` from the
default unauthorized path, or an exception raised by a registered
operator-supplied handler. -/
inductive AbortOr where
  | httpAbort (code : Nat)
  | handlerExn (msg : String)
deriving Repr, DecidableEq

/-- rest_security.py `handle_unauthorized_user`: call the registered
handler if any (its own exceptions propagate), else `abort(401)`. -/
def handle_unauthorized_user (handler : Option (Unit → Except String Unit)) :
    Except AbortOr Unit :=
  match handler with
  | some h =>
      match h () with
      | .ok _ => .ok ()
      | .error m => .error (.handlerExn m)
  | none => .error (.httpAbort 401)

/-- rest_security.py `auth_required` wrapper body.  `secured` is the result
of `_is_secured_request_context()`; `extractResult` the outcome of
`get_auth_info_from_request()`.  Any exception from extraction or from the
chain is caught, logged, and routed to `handle_unauthorized_user`; if that
returns normally the wrapped `func` still runs and its (filtered) result is
returned. -/
def auth_required {α : Type} (secured : Bool)
    (extractResult : Except ExtractErr AuthInfo)
    (providers : List (String × Provider)) (store : Userstore)
    (handler : Option (Unit → Except String Unit))
    (func : Unit → α) (ctx : RequestCtx) : Except AbortOr (α × RequestCtx) :=
  if secured then
    let attempt : Except String RequestCtx :=
      match extractResult with
      | .error _ => .error "headers not found"
      | .ok info => authenticate providers info store ctx
    match attempt with
    | .ok ctx2 => .ok (filter_results (func ()), ctx2)
    | .error _ =>
        match handle_unauthorized_user handler with
        | .error a => .error a
        | .ok _ => .ok (filter_results (func ()), ctx)
  else
    .ok (func (), ctx)

/-- One line of the orchestrator's failure buffer:
`'\n{method} authentication failed: {e}'`. -/
def failLine (name reason : String) : String :=
  "\n" ++ name ++ " authentication failed: " ++ reason

/-- The full aggregate failure message for a run in which the named
providers failed with the paired reasons, in attempt order. -/
def aggregateMsg : List (String × String) → String
  | [] => ""
  | (n, r) :: rest => failLine n r ++ aggregateMsg rest

/-! ## Concrete fixtures used by witnesses and counterexamples -/

/-- A concrete registered user. -/
def alice : User := { username := "alice", password := "alicepw" }

/-- A user store resolving only `"alice"`. -/
def storeEx : Userstore := fun n => if n = "alice" then some alice else none

/-- A wire decoding under which the blob `"alice-token"` is a token issued
for `"alice"` at time 0 under secret `"topsecret"`; all else is garbage. -/
def wireEx : String → Token := fun s =>
  if s = "alice-token" then generate_auth_token "topsecret" 0 "alice" else .garbage

/-- The `TokenAuthenticator` of token.py as a registered provider: its
`authenticate` is defined with `(self, userstore)`, hence `oneArg`.
Configured with secret `"topsecret"`, expiry 600, evaluated at wall-clock
100 on a request carrying token blob `"alice-token"`. -/
def tokenProviderEx : Provider :=
  .oneArg fun store =>
    match tokenAuthenticate "topsecret" 600 100 wireEx (some "alice-token") store with
    | .ok u => .ok u
    | .error e => .error e.message

/-- An externally supplied password provider that fails (wrong password),
implementing the two-argument contract. -/
def basicFailP : Provider := .twoArg fun _ _ => .error "wrong password"

/-- An externally supplied two-argument provider that succeeds with
`alice`. -/
def okP : Provider := .twoArg fun _ _ => .ok alice

/-- The credentials of a request carrying a bad Basic header for alice and
her valid token blob. -/
def infoEx : AuthInfo := ⟨some "alice", some "wrongpw", some "alice-token"⟩

/-- A concrete base64 decoder fragment of `itsdangerous.base64_decode`:
`'dXNlcjpwYTpzcw==' -> 'user:pa:ss'`, `'bm9jb2xvbg==' -> 'nocolon'`,
anything else fails to decode. -/
def b64ex : String → Option String := fun s =>
  if s = "dXNlcjpwYTpzcw==" then some "user:pa:ss"
  else if s = "bm9jb2xvbg==" then some "nocolon"
  else none

/-- A second concrete user, distinct from `alice`. -/
def bob : User := { username := "bob", password := "bobpw" }

/-! ## Theorems -/

/-- C1: the claim says every registered provider variant, the token
provider included, satisfies the two-argument `authenticate(credentials,
userStore)` contract the orchestrator invokes, and that on a request with
a bad Basic header and a valid unexpired token for `"alice"` the chain
`["basic", "token"]` binds alice.  The code violates this:
`TokenAuthenticator.authenticate(self, userstore)` takes one argument, so
the orchestrator's call `authenticate(auth_info, userstore_driver)` raises
`TypeError` and every provider fails.  First conjunct: the token provider
itself, called per its own signature, would authenticate alice.  Second
conjunct: the chain nevertheless raises the aggregate error (with the
`TypeError` recorded) and binds nothing. -/
theorem c1_token_provider_arity_mismatch :
    tokenAuthenticate "topsecret" 600 100 wireEx (some "alice-token") storeEx = .ok alice ∧
    authenticate [("basic", basicFailP), ("token", tokenProviderEx)] infoEx storeEx ⟨none⟩ =
      .error ("\nbasic authentication failed: wrong password\ntoken authentication failed: authenticate() takes exactly 2 arguments (3 given)") := by
  exact ⟨rfl, rfl⟩

/-- C7: the claim says Basic credential extraction splits the decoded
payload on the FIRST `':'`, so `user:pa:ss` yields secret `"pa:ss"`.  The
code does `api_key.split(':')` and takes `parts[1]`, so the decoded
payload `user:pa:ss` (header `Basic dXNlcjpwYTpzcw==`) yields secret
`"pa"`, the segment between the first and second colon. -/
theorem c7_secret_is_second_segment :
    get_auth_info_from_request b64ex (some "Basic dXNlcjpwYTpzcw==") none =
      .ok ⟨some "user", some "pa", none⟩ := by
  exact rfl

/-- C8 counterexample: on the Basic header `Basic bm9jb2xvbg==`, whose
payload decodes successfully to `nocolon` (no `':'` separator), credential
extraction raises an `IndexError` from `api_key_parts[1]` instead of
falling through and returning a credentials structure — refuting the
claim that extraction never raises on malformed input. -/
theorem c8_no_colon_raises :
    get_auth_info_from_request b64ex (some "Basic bm9jb2xvbg==") none =
      .error .indexError := by
  exact rfl

/-- C8 amended: a failed base64 decode is tolerated silently (both
credential fields left absent, a credentials structure still returned),
but a payload that decodes successfully yet contains no `':'` raises an
`IndexError`. -/
theorem c8_amended_decode_leniency (b64decode : String → Option String)
    (h : String) (tok : Option String) (hh : h ≠ "") :
    (b64decode (replaceFirst h "Basic ") = none →
      get_auth_info_from_request b64decode (some h) tok = .ok ⟨none, none, tok⟩) ∧
    (∀ apiKey, b64decode (replaceFirst h "Basic ") = some apiKey →
      pySplitColon apiKey = [apiKey] →
      get_auth_info_from_request b64decode (some h) tok = .error .indexError) := by
  constructor
  · intro hdec
    simp [get_auth_info_from_request, strFalsy, hh, hdec]
  · intro apiKey hdec hsplit
    simp [get_auth_info_from_request, strFalsy, hh, hdec, hsplit]

/-- C8 amended witness: at the concrete decoder `b64ex` with header
`Basic !!!` (undecodable) the extraction returns an empty credentials
structure, and with header `Basic bm9jb2xvbg==` (decodes to `nocolon`) it
raises `IndexError`. -/
theorem c8_amended_witness :
    get_auth_info_from_request b64ex (some "Basic !!!") none = .ok ⟨none, none, none⟩ ∧
    get_auth_info_from_request b64ex (some "Basic bm9jb2xvbg==") none = .error .indexError :=
  ⟨(c8_amended_decode_leniency b64ex "Basic !!!" none (by decide)).1 rfl,
   (c8_amended_decode_leniency b64ex "Basic bm9jb2xvbg==" none (by decide)).2 "nocolon" rfl rfl⟩

/-- C9 counterexample: a second `set_request_user` within the same request
context silently overwrites the previously bound user and produces no
failure — refuting the claim that a second bind is treated as an
assertion failure rather than a normal update. -/
theorem c9_second_bind_overwrites :
    set_request_user (set_request_user ⟨none⟩ alice) bob = ⟨some bob⟩ ∧
    (set_request_user (set_request_user ⟨none⟩ alice) bob).user ≠ some alice := by
  exact ⟨rfl, by decide⟩

/-- C9 amended: `set_request_user` is a plain attribute assignment; a
second bind within the same request silently overwrites the previously
bound user with the new one, with no assertion or failure of any kind. -/
theorem c9_amended_bind_is_plain_assignment (ctx : RequestCtx) (u : User) :
    (set_request_user ctx u).user = some u := rfl

/-- C10: inside an active request context in which no user has ever been
bound, `get_request_user` does not return an absent value: the
two-argument `getattr` raises `AttributeError`; outside any active
request context it raises the `working outside of request context`
`RuntimeError` instead. -/
theorem c10_get_request_user_errors (ctx : RequestCtx) (hu : ctx.user = none) :
    get_request_user (some ctx) = .error .attributeError ∧
    get_request_user none = .error .workingOutsideRequestContext := by
  constructor
  · simp [get_request_user, getRequestContext, hu]
  · rfl

/-- C10 witness: the fresh request context. -/
theorem c10_witness :
    get_request_user (some ⟨none⟩) = .error .attributeError ∧
    get_request_user none = .error .workingOutsideRequestContext :=
  c10_get_request_user_errors ⟨none⟩ rfl

/-- Helper: when every provider before `(name, p)` fails and `p` succeeds
with `u`, the provider loop returns `u`, for any buffer contents and any
tail of later providers. -/
theorem tryProviders_first_ok (info : AuthInfo) (store : Userstore)
    (name : String) (p : Provider) (u : User)
    (hp : invokeProvider p info store = .ok u) :
    ∀ (pre : List (String × Provider)),
      (∀ x ∈ pre, ∃ e, invokeProvider x.2 info store = .error e) →
      ∀ (post : List (String × Provider)) (acc : String),
        tryProviders (pre ++ (name, p) :: post) info store acc = .ok u := by
  intro pre
  induction pre with
  | nil =>
      intro _ post acc
      simp [tryProviders, hp]
  | cons head tail ih =>
      intro hpre post acc
      obtain ⟨hn, hq⟩ := head
      obtain ⟨e, he⟩ := hpre (hn, hq) (List.mem_cons_self _ _)
      simp only [List.cons_append, tryProviders, he]
      exact ih (fun x hx => hpre x (List.mem_cons_of_mem _ hx)) post _

/-- C3: for every ordered provider mapping split as `pre ++ (name, p) ::
post`, if every provider of `pre` fails and `p` returns a user `u` without
failing, the orchestrator returns successfully with `u` bound as the
request identity, and the result does not depend on `post`: no later
provider is attempted. -/
theorem c3_first_success_short_circuits (pre post : List (String × Provider))
    (name : String) (p : Provider) (info : AuthInfo) (store : Userstore)
    (ctx : RequestCtx) (u : User)
    (hpre : ∀ x ∈ pre, ∃ e, invokeProvider x.2 info store = .error e)
    (hp : invokeProvider p info store = .ok u) :
    authenticate (pre ++ (name, p) :: post) info store ctx =
      .ok (set_request_user ctx u) := by
  unfold authenticate
  rw [tryProviders_first_ok info store name p u hp pre hpre post ""]

/-- C3 witness: a failing provider registered before a succeeding one and
before a further (never attempted) one; the chain binds alice. -/
theorem c3_witness :
    authenticate ([("basic", basicFailP)] ++ ("ok", okP) :: [("later", basicFailP)])
        infoEx storeEx ⟨none⟩ = .ok (set_request_user ⟨none⟩ alice) :=
  c3_first_success_short_circuits [("basic", basicFailP)] [("later", basicFailP)]
    "ok" okP infoEx storeEx ⟨none⟩ alice
    (by
      intro x hx
      simp only [List.mem_singleton] at hx
      subst hx
      exact ⟨"wrong password", rfl⟩)
    rfl

/-- Helper: when every provider fails (with the paired reasons, in
order), the loop raises the buffer extended by one `failLine` per
provider, in attempt order. -/
theorem tryProviders_all_fail (info : AuthInfo) (store : Userstore) :
    ∀ (l : List (String × Provider)) (reasons : List String),
      List.Forall₂ (fun pr r => invokeProvider pr.2 info store = .error r) l reasons →
      ∀ acc, tryProviders l info store acc =
        .error (acc ++ aggregateMsg ((l.map Prod.fst).zip reasons)) := by
  intro l
  induction l with
  | nil =>
      intro reasons hfail acc
      cases hfail
      simp [tryProviders, aggregateMsg]
  | cons head tail ih =>
      intro reasons hfail acc
      cases hfail with
      | cons hhead htail =>
          obtain ⟨n, q⟩ := head
          simp only [tryProviders, hhead]
          rw [ih _ htail]
          simp only [List.map_cons, List.zip_cons_cons, aggregateMsg, failLine]
          congr 1
          simp [String.append_assoc, List.zip]

/-- C4: for every non-empty provider mapping in which every provider
fails (reason `rᵢ` for the provider named `nᵢ`), the orchestrator raises a
single aggregate failure whose message is exactly the concatenation, in
attempt order, of one `'\n{nᵢ} authentication failed: {rᵢ}'` line per
attempted provider — so it contains every individual reason, in order,
and no individual failure surfaces bare. -/
theorem c4_aggregate_failure (providers : List (String × Provider))
    (reasons : List String) (info : AuthInfo) (store : Userstore)
    (ctx : RequestCtx) (_hne : providers ≠ [])
    (hfail : List.Forall₂
      (fun pr r => invokeProvider pr.2 info store = .error r) providers reasons) :
    authenticate providers info store ctx =
      .error (aggregateMsg ((providers.map Prod.fst).zip reasons)) := by
  unfold authenticate
  rw [tryProviders_all_fail info store providers reasons hfail ""]
  rw [String.empty_append]

/-- C4 witness: two failing providers; the aggregate carries both reasons
in registration order. -/
theorem c4_witness :
    authenticate [("basic", basicFailP), ("token", tokenProviderEx)] infoEx storeEx ⟨none⟩ =
      .error (aggregateMsg [("basic", "wrong password"),
        ("token", "authenticate() takes exactly 2 arguments (3 given)")]) :=
  c4_aggregate_failure [("basic", basicFailP), ("token", tokenProviderEx)]
    ["wrong password", "authenticate() takes exactly 2 arguments (3 given)"]
    infoEx storeEx ⟨none⟩ (List.cons_ne_nil _ _)
    (List.Forall₂.cons rfl (List.Forall₂.cons rfl List.Forall₂.nil))

/-- C2: when authentication fails (here: every provider fails) and an
operator-supplied unauthorized handler is registered and returns
normally, the `auth_required` wrapper still executes the wrapped secured
function and returns its (filtered) result; only with no handler
registered does it abort with HTTP 401 before the handler runs. -/
theorem c2_handler_return_runs_secured_function {α : Type} (info : AuthInfo)
    (providers : List (String × Provider)) (store : Userstore) (msg : String)
    (h : Unit → Except String Unit) (func : Unit → α) (ctx : RequestCtx)
    (hfail : tryProviders providers info store "" = .error msg)
    (hh : h () = .ok ()) :
    auth_required true (.ok info) providers store (some h) func ctx =
      .ok (filter_results (func ()), ctx) ∧
    auth_required true (.ok info) providers store none func ctx =
      .error (.httpAbort 401) := by
  constructor
  · simp [auth_required, authenticate, hfail, handle_unauthorized_user, hh]
  · simp [auth_required, authenticate, hfail, handle_unauthorized_user]

/-- C2 witness: a chain of one failing provider, a handler that returns
normally; the secured function runs and its result reaches the client. -/
theorem c2_witness :
    auth_required true (.ok infoEx) [("basic", basicFailP)] storeEx
        (some fun _ => .ok ()) (fun _ => "secret payload") ⟨none⟩ =
      .ok (filter_results "secret payload", ⟨none⟩) ∧
    auth_required true (.ok infoEx) [("basic", basicFailP)] storeEx
        none (fun _ => "secret payload") ⟨none⟩ =
      .error (.httpAbort 401) :=
  c2_handler_return_runs_secured_function infoEx [("basic", basicFailP)] storeEx
    "\nbasic authentication failed: wrong password"
    (fun _ => .ok ()) (fun _ => "secret payload") ⟨none⟩ rfl rfl

/-- C5: the token provider's verification outcomes, one conjunct per
taxonomy entry.  With `r` abbreviating the verification run: the token
header absent or empty fails with the missing-credentials error
(`Authentication header not found on request`); a valid signature with an
exceeded expiry fails with `token expired`; a blob whose signature
verifies under no key, or under a key other than the configured secret,
or whose payload lacks a (non-empty) username, fails with
`invalid token`; a structurally valid unexpired token whose subject the
user store does not resolve fails with `user not found`; otherwise the
user resolved by the store is returned. -/
theorem c5_token_verification_taxonomy (secret : String) (expiresIn now iat : Nat)
    (wire : String → Token) (ts subject : String) (store : Userstore) :
    (tokenAuthenticate secret expiresIn now wire none store = .error .headerNotFound) ∧
    (tokenAuthenticate secret expiresIn now wire (some "") store = .error .headerNotFound) ∧
    (ts ≠ "" → wire ts = .signed (some subject) iat secret → iat + expiresIn < now →
      tokenAuthenticate secret expiresIn now wire (some ts) store = .error .tokenExpired) ∧
    (ts ≠ "" → wire ts = .garbage →
      tokenAuthenticate secret expiresIn now wire (some ts) store = .error .invalidToken) ∧
    (ts ≠ "" → ∀ payload iat2 key, key ≠ secret → wire ts = .signed payload iat2 key →
      tokenAuthenticate secret expiresIn now wire (some ts) store = .error .invalidToken) ∧
    (ts ≠ "" → wire ts = .signed none iat secret → now ≤ iat + expiresIn →
      tokenAuthenticate secret expiresIn now wire (some ts) store = .error .invalidToken) ∧
    (ts ≠ "" → wire ts = .signed (some "") iat secret → now ≤ iat + expiresIn →
      tokenAuthenticate secret expiresIn now wire (some ts) store = .error .invalidToken) ∧
    (ts ≠ "" → subject ≠ "" → wire ts = .signed (some subject) iat secret →
      now ≤ iat + expiresIn → store subject = none →
      tokenAuthenticate secret expiresIn now wire (some ts) store = .error .userNotFound) ∧
    (ts ≠ "" → subject ≠ "" → wire ts = .signed (some subject) iat secret →
      now ≤ iat + expiresIn → ∀ u, store subject = some u →
      tokenAuthenticate secret expiresIn now wire (some ts) store = .ok u) := by
  refine ⟨rfl, rfl, ?_, ?_, ?_, ?_, ?_, ?_, ?_⟩
  · intro hts hw hexp
    simp [tokenAuthenticate, tokenFromRequest, serializerLoads, hts, hw, hexp]
  · intro hts hw
    simp [tokenAuthenticate, tokenFromRequest, serializerLoads, hts, hw]
  · intro hts payload iat2 key hkey hw
    simp [tokenAuthenticate, tokenFromRequest, serializerLoads, hts, hw, hkey]
  · intro hts hw hnow
    simp [tokenAuthenticate, tokenFromRequest, serializerLoads, hts, hw,
      Nat.not_lt.mpr hnow]
  · intro hts hw hnow
    simp [tokenAuthenticate, tokenFromRequest, serializerLoads, hts, hw,
      Nat.not_lt.mpr hnow]
  · intro hts hsub hw hnow hstore
    simp [tokenAuthenticate, tokenFromRequest, serializerLoads, hts, hsub, hw,
      Nat.not_lt.mpr hnow, hstore]
  · intro hts hsub hw hnow u hstore
    simp [tokenAuthenticate, tokenFromRequest, serializerLoads, hts, hsub, hw,
      Nat.not_lt.mpr hnow, hstore]

/-- C5 witness: the user-not-found conjunct at a concrete unexpired,
correctly signed token for `"carol"`, whom `storeEx` does not resolve. -/
theorem c5_witness :
    tokenAuthenticate "topsecret" 600 100
      (fun _ => .signed (some "carol") 0 "topsecret") (some "t") storeEx =
      .error .userNotFound :=
  (c5_token_verification_taxonomy "topsecret" 600 100 0
      (fun _ => .signed (some "carol") 0 "topsecret") "t" "carol" storeEx).2.2.2.2.2.2.2.1
    (by decide) (by decide) rfl (by decide) rfl

/-- C6 counterexample: the issuance operation accepts the empty subject
identifier, and verifying the resulting token within the expiry window
under the same secret, with a user store that DOES resolve `""` to a
user, fails with `invalid token` instead of returning that user —
refuting the round-trip claim as stated for every subject identifier. -/
theorem c6_empty_subject_breaks_roundtrip :
    (fun s => if s = "" then some alice else none : Userstore) "" = some alice ∧
    tokenAuthenticate "topsecret" 600 100
      (fun _ => generate_auth_token "topsecret" 100 "") (some "t")
      (fun s => if s = "" then some alice else none) = .error .invalidToken := by
  exact ⟨rfl, rfl⟩

/-- C6 amended: for every token produced by issuance for a NON-EMPTY
subject identifier, verification under the same secret within the expiry
window returns the user the store resolves for that subject, provided the
store resolves it. -/
theorem c6_issue_verify_roundtrip (secret : String) (expiresIn iat now : Nat)
    (subject ts : String) (wire : String → Token) (store : Userstore) (u : User)
    (hsub : subject ≠ "") (hts : ts ≠ "")
    (hwire : wire ts = generate_auth_token secret iat subject)
    (hnow : now ≤ iat + expiresIn)
    (hstore : store subject = some u) :
    tokenAuthenticate secret expiresIn now wire (some ts) store = .ok u := by
  simp [tokenAuthenticate, tokenFromRequest, serializerLoads, hts, hsub, hwire,
    generate_auth_token, Nat.not_lt.mpr hnow, hstore]

/-- C6 amended witness: the concrete alice token round-trips. -/
theorem c6_roundtrip_witness :
    tokenAuthenticate "topsecret" 600 100 wireEx (some "alice-token") storeEx = .ok alice :=
  c6_issue_verify_roundtrip "topsecret" 600 0 100 "alice" "alice-token" wireEx storeEx alice
    (by decide) (by decide) rfl (by decide) rfl

end FlaskSecurest
